import Mathlib

/-!
Shallow embedding of `plot.py` (imdb-calendar-heatmap): hex color
conversion and blending, CSV record loading, per-date aggregation, and the
calendar-heatmap grid layout and cell coloring, together with theorems
settling the specification's claims about them.

Conventions of the embedding:
* Python `int` / arithmetic on small non-negative quantities is `Nat`.
* Python `float` arithmetic on exact fractions (hex channel values divided
  by 255, averaged) is `ℚ`; the transcendental `math.log1p` intensity is `ℝ`.
* Python exceptions are `Except String` values tagged with the exception
  class name (`"ValueError"`, `"ZeroDivisionError"`).
* A Python `datetime.date` is its (year, zero-based day-of-year) pair,
  which is in bijection with the proleptic-Gregorian ordinal that CPython
  uses internally.
-/

namespace Heatmap

/-! ### Hex color parsing (`hex_to_rgb`, plot.py lines 29-34) -/

/-- Numeric value of a hexadecimal digit character (`0-9a-fA-F`), by code
point; `0` on non-hex-digit characters (unreachable after validation). -/
def hexVal (c : Char) : ℕ :=
  if 48 ≤ c.toNat ∧ c.toNat ≤ 57 then c.toNat - 48
  else if 97 ≤ c.toNat ∧ c.toNat ≤ 102 then c.toNat - 87
  else if 65 ≤ c.toNat ∧ c.toNat ≤ 70 then c.toNat - 55
  else 0

/-- Is `c` a hexadecimal digit (`0-9a-fA-F`)? -/
def isHexDigitChar (c : Char) : Bool :=
  decide ((48 ≤ c.toNat ∧ c.toNat ≤ 57) ∨ (97 ≤ c.toNat ∧ c.toNat ≤ 102) ∨
    (65 ≤ c.toNat ∧ c.toNat ≤ 70))

/-- Python `int(s, 16)` on a plain string of hex digits: `none` (a
`ValueError`) when empty or containing a non-hex-digit character. -/
def parseHexNat (cs : List Char) : Option ℕ :=
  if cs ≠ [] ∧ cs.all isHexDigitChar then
    some (cs.foldl (fun a c => a * 16 + hexVal c) 0)
  else none

/-- The raw integer channel values `int(hex_color[0:2], 16)` etc. of
`hex_to_rgb`, after `lstrip("#")`.  Python slices of up to two characters
are `(cs.drop i).take 2`; `int` of an empty slice raises. -/
def parseHexColor (s : String) : Option (ℕ × ℕ × ℕ) := do
  let cs := s.data.dropWhile (· == '#')
  let r ← parseHexNat ((cs.drop 0).take 2)
  let g ← parseHexNat ((cs.drop 2).take 2)
  let b ← parseHexNat ((cs.drop 4).take 2)
  some (r, g, b)

/-! ### IEEE-754 binary64 arithmetic

Python floats are IEEE-754 binary64 values: every arithmetic operation
computes the exact rational result and rounds it to 53 significant bits,
round-to-nearest with ties to even.  Every value reaching the blend
pipeline lies in `[1/255, 512]` or is `0` — far inside the normal
binary64 range — so neither subnormals nor overflow need handling, and a
binary64 value is just a rational `m * 2^e` with `2^52 ≤ |m| < 2^53`. -/

/-- Fuel-driven `⌊log2 n⌋` (`0` for `n ∈ {0, 1}`); structural recursion
so that the kernel can evaluate it (`fuel ≥ n` suffices). -/
def log2fuel : ℕ → ℕ → ℕ
  | 0, _ => 0
  | fuel + 1, n => if 2 ≤ n then log2fuel fuel (n / 2) + 1 else 0

/-- `⌊log2 n⌋` for `n ≥ 1` (and `0` at `0`). -/
def natLog2 (n : ℕ) : ℕ := log2fuel n n

/-- The rational `2 ^ s` for a signed exponent. -/
def qpow2 (s : ℤ) : ℚ :=
  if 0 ≤ s then ((2 ^ s.toNat : ℕ) : ℚ) else mkRat 1 (2 ^ (-s).toNat)

/-- `⌊log2 q⌋` of a positive rational: `⌊log2 num⌋ - ⌊log2 den⌋` is
correct or one too large, and one comparison settles which. -/
def ilog2 (q : ℚ) : ℤ :=
  let e : ℤ := (natLog2 q.num.toNat : ℤ) - (natLog2 q.den : ℤ)
  if qpow2 e ≤ q then e else e - 1

/-- Round a rational to the nearest integer, ties to even. -/
def rnde (x : ℚ) : ℤ :=
  let n := ⌊x⌋
  if x - (n : ℚ) < mkRat 1 2 then n
  else if mkRat 1 2 < x - (n : ℚ) then n + 1
  else if n % 2 = 0 then n else n + 1

/-- Round a positive rational to 53 significant bits: scale the mantissa
into `[2^52, 2^53)`, round to nearest ties-even, and scale back. -/
def flPos (q : ℚ) : ℚ :=
  (rnde (q * qpow2 (52 - ilog2 q)) : ℚ) * qpow2 (ilog2 q - 52)

/-- Round a rational to the nearest IEEE-754 binary64 value
(round-to-nearest, ties to even); exact for `0`.  This is the rounding
applied after every Python float operation in the blend pipeline. -/
def fl (q : ℚ) : ℚ :=
  if q = 0 then 0 else if 0 < q then flPos q else -flPos (-q)

/-- Python `sum` over a list of doubles: `sum` starts from the int `0`,
and `0 + x` is exact for every finite double, so the result is a left
fold of rounded additions starting at the first element. -/
def fsum : List ℚ → ℚ
  | [] => 0
  | x :: rest => rest.foldl (fun a v => fl (a + v)) x

/-- `hex_to_rgb` (plot.py lines 29-34): channel values divided by 255 in
float arithmetic (the quotient is rounded to binary64). -/
def hex_to_rgb (s : String) : Option (ℚ × ℚ × ℚ) :=
  (parseHexColor s).map fun c =>
    (fl ((c.1 : ℚ) / 255), fl ((c.2.1 : ℚ) / 255), fl ((c.2.2 : ℚ) / 255))

/-! ### Hex color formatting (`rgb_to_hex`, plot.py lines 37-40) -/

/-- Python `int(...)` on a rational: truncation toward zero. -/
def pyInt (q : ℚ) : ℤ := if 0 ≤ q then ⌊q⌋ else -⌊-q⌋

/-- Lowercase hex digit character for a value below 16. -/
def hexChar (n : ℕ) : Char :=
  if n < 10 then Char.ofNat (48 + n) else Char.ofNat (87 + n)

/-- Python `"{:02x}".format(n)` for `0 ≤ n ≤ 255` (every channel value
reachable from `rgb_to_hex` lies in that range). -/
def toHex2 (n : ℤ) : String :=
  String.mk [hexChar (n.toNat / 16), hexChar (n.toNat % 16)]

/-- `rgb_to_hex` (plot.py lines 37-40): `int(channel * 255)` — a float
multiplication (rounded to binary64) truncated toward zero — formatted as
two lowercase hex digits, prefixed with `#`. -/
def rgb_to_hex (c : ℚ × ℚ × ℚ) : String :=
  "#" ++ toHex2 (pyInt (fl (c.1 * 255))) ++ toHex2 (pyInt (fl (c.2.1 * 255))) ++
    toHex2 (pyInt (fl (c.2.2 * 255)))

/-! ### Color blending (`blend_colors`, plot.py lines 43-50) -/

/-- Result of a Python list comprehension over fallible elements: the list
of values if every element succeeds, `none` (first exception propagates)
otherwise. -/
def allSome {α : Type} : List (Option α) → Option (List α)
  | [] => some []
  | none :: _ => none
  | some a :: rest => (allSome rest).map (a :: ·)

/-- `blend_colors` (plot.py lines 43-50).  A singleton is returned
unchanged before any conversion; otherwise every color is converted with
`hex_to_rgb` (a bad color raises `ValueError`), the per-channel float sum
is divided by the length (raising `ZeroDivisionError` on the empty list;
the division is rounded to binary64), and the mean is formatted with
`rgb_to_hex`. -/
def blend_colors (colors : List String) : Except String String :=
  if colors.length = 1 then .ok colors.headI
  else
    match allSome (colors.map hex_to_rgb) with
    | none => .error "ValueError"
    | some rgbs =>
      if rgbs.length = 0 then .error "ZeroDivisionError"
      else
        let n : ℚ := rgbs.length
        .ok (rgb_to_hex (fl (fsum (rgbs.map (·.1)) / n),
          fl (fsum (rgbs.map (·.2.1)) / n), fl (fsum (rgbs.map (·.2.2)) / n)))

/-! ### Dates

CPython's `datetime.date` is internally the proleptic-Gregorian ordinal
(`0001-01-01` has ordinal 1 and is a Monday); a date is therefore the pair
(year, zero-based day-of-year).  `d.weekday()` is Monday = 0. -/

/-- Gregorian leap-year test. -/
def isLeap (y : ℕ) : Bool := y % 4 == 0 && (y % 100 != 0 || y % 400 == 0)

/-- Number of days of year `y` (366 in leap years, else 365). -/
def daysInYear (y : ℕ) : ℕ := if isLeap y then 366 else 365

/-- Days in month `m` (1-12) of a (non-)leap year. -/
def daysInMonth (leap : Bool) (m : ℕ) : ℕ :=
  match m with
  | 1 => 31 | 2 => if leap then 29 else 28 | 3 => 31 | 4 => 30
  | 5 => 31 | 6 => 30 | 7 => 31 | 8 => 31
  | 9 => 30 | 10 => 31 | 11 => 30 | 12 => 31
  | _ => 0

/-- Days of the year strictly before month `m` (1-12). -/
def daysBeforeMonth (leap : Bool) (m : ℕ) : ℕ :=
  ((List.range (m - 1)).map fun i => daysInMonth leap (i + 1)).sum

/-- Days strictly before January 1 of year `y` in the proleptic Gregorian
calendar, counted from `0001-01-01` (`y ≥ 1`). -/
def daysBeforeYear (y : ℕ) : ℕ :=
  365 * (y - 1) + (y - 1) / 4 - (y - 1) / 100 + (y - 1) / 400

/-- A `datetime.date` as (year, zero-based day-of-year). -/
structure Date where
  year : ℕ
  doy : ℕ
deriving DecidableEq

/-- Python `date.weekday()` of day `doy` of year `year`: Monday = 0. -/
def pyWeekday (year doy : ℕ) : ℕ := (daysBeforeYear year + doy) % 7

/-- Is `c` a decimal digit? -/
def isDigitChar (c : Char) : Bool := decide (48 ≤ c.toNat ∧ c.toNat ≤ 57)

/-- A `strptime` numeric field of at most `maxLen` digits. -/
def parseNum (cs : List Char) (maxLen : ℕ) : Option ℕ :=
  if cs ≠ [] ∧ cs.length ≤ maxLen ∧ cs.all isDigitChar then
    some (cs.foldl (fun a c => a * 10 + (c.toNat - 48)) 0)
  else none

/-- Split a character list at every `'-'` (the shape `"%Y-%m-%d"` cuts
the input into); the result always has at least one (possibly empty)
group. -/
def splitDash : List Char → List (List Char)
  | [] => [[]]
  | c :: rest =>
    match splitDash rest with
    | [] => [[]]
    | g :: gs => if c = '-' then [] :: g :: gs else (c :: g) :: gs

/-- `datetime.strptime(date_str, "%Y-%m-%d").date()` (plot.py line 65):
CPython's `%Y` matches exactly four digits, `%m` and `%d` one or two; the
components must form a real calendar date (year ≥ 1, month 1-12, day
within the month), otherwise a `ValueError` is raised (`none`). -/
def parseDate (s : String) : Option Date :=
  match splitDash s.data with
  | [ys, ms, ds] => do
    let y ← if ys.length = 4 then parseNum ys 4 else none
    let m ← parseNum ms 2
    let d ← parseNum ds 2
    if 1 ≤ y ∧ 1 ≤ m ∧ m ≤ 12 ∧ 1 ≤ d ∧ d ≤ daysInMonth (isLeap y) m then
      some ⟨y, daysBeforeMonth (isLeap y) m + (d - 1)⟩
    else none
  | _ => none

/-! ### Palette and category mapping (plot.py lines 10-26) -/

/-- `TITLE_TYPE_COLORS` (plot.py lines 10-15). -/
def TITLE_TYPE_COLORS : List (String × String) :=
  [("TV Episode", "#4f46e5"), ("Movie", "#16a34a"),
   ("TV Series", "#ea580c"), ("Short", "#0d9488")]

/-- `TYPE_MAPPING` (plot.py lines 17-24); `none` is Python's `None`, the
drop sentinel. -/
def TYPE_MAPPING : List (String × Option String) :=
  [("TV Movie", some "Movie"), ("TV Mini Series", some "TV Series"),
   ("TV Short", some "Short"), ("TV Special", some "TV Series"),
   ("Video", none), ("Video Game", none)]

/-- `DEFAULT_COLOR` (plot.py line 26). -/
def DEFAULT_COLOR : String := "#64748b"

/-- Python `TYPE_MAPPING.get(t, t)` (plot.py line 61): the stored value
(possibly the `None` drop sentinel) when the key is present, else the raw
category itself. -/
def mapType (t : String) : Option String :=
  match TYPE_MAPPING.find? (fun p => p.1 == t) with
  | some p => p.2
  | none => some t

/-- Python `TITLE_TYPE_COLORS.get(t, DEFAULT_COLOR)` (plot.py line 81). -/
def paletteColor (t : String) : String :=
  match TITLE_TYPE_COLORS.find? (fun p => p.1 == t) with
  | some p => p.2
  | none => DEFAULT_COLOR

/-! ### Loading (`load_imdb_ratings`, plot.py lines 53-69) -/

/-- One CSV row, reduced to the two fields the loader reads;
`row.get(..., "")` turns a missing field into `""`. -/
structure Row where
  dateRated : String
  titleType : String
deriving DecidableEq

/-- A loaded rating record. -/
structure Record where
  date : Date
  title_type : String
deriving DecidableEq

/-- The treatment of a single CSV row by the loop body of
`load_imdb_ratings` (plot.py lines 57-68): skip if either field is empty
(falsy), skip if the mapped type is the drop sentinel, skip if the date
fails to parse, else produce the record. -/
def loadRow (row : Row) : Option Record :=
  if row.dateRated ≠ "" ∧ row.titleType ≠ "" then
    match mapType row.titleType with
    | none => none
    | some mapped =>
      match parseDate row.dateRated with
      | some d => some ⟨d, mapped⟩
      | none => none
  else none

/-- `load_imdb_ratings` (plot.py lines 53-69) on the parsed rows. -/
def load_imdb_ratings (rows : List Row) : List Record :=
  rows.filterMap loadRow

/-! ### Aggregation (`aggregate_by_date`, plot.py lines 72-77) -/

/-- The per-date value `{"count": ..., "types": ...}`; the Python `set`
of types is a duplicate-free list (Python sets carry no meaningful
order). -/
structure Agg where
  count : ℕ
  types : List String
deriving DecidableEq

/-- One loop iteration of `aggregate_by_date`: `by_date[r.date]["count"] += 1`
and `by_date[r.date]["types"].add(r.title_type)`, with the `defaultdict`
creating `{"count": 0, "types": set()}` for a missing key. -/
def addRecord (m : Date → Option Agg) (r : Record) : Date → Option Agg :=
  fun d =>
    if d = r.date then
      some (match m r.date with
        | none => ⟨1, [r.title_type]⟩
        | some a => ⟨a.count + 1, a.types.insert r.title_type⟩)
    else m d

/-- `aggregate_by_date` (plot.py lines 72-77), as the partial map from
dates to aggregates built by folding over the records in order. -/
def aggregate_by_date (ratings : List Record) : Date → Option Agg :=
  ratings.foldl addRecord (fun _ => none)

/-- `get_color_for_date` (plot.py lines 80-82): blend the palette colors
of the types present (a Python `set`, iterated in some order). -/
def get_color_for_date (types : List String) : Except String String :=
  blend_colors (types.map paletteColor)

/-! ### Heatmap grid and cells (`create_calendar_heatmap`, plot.py 85-148) -/

/-- `start_weekday_sun` (plot.py lines 102-103): Sunday-indexed weekday of
January 1 of `year`. -/
def start_weekday_sun (year : ℕ) : ℕ := (pyWeekday year 0 + 1) % 7

/-- Grid row of day `doy` of `year` (plot.py lines 110-111): Sunday = 0. -/
def rowOf (year doy : ℕ) : ℕ := (pyWeekday year doy + 1) % 7

/-- Grid column of day `doy` of `year` (plot.py lines 113-114). -/
def colOf (year doy : ℕ) : ℕ := (doy + start_weekday_sun year) / 7

/-- The intensity formula (plot.py lines 123-124):
`max(0.4, min(log1p(count) / log1p(max_count), 1.0))`. -/
noncomputable def intensity (count maxCount : ℕ) : ℝ :=
  max 0.4 (min (Real.log (1 + count) / Real.log (1 + maxCount)) 1)

/-- The face color assigned to one cell: either a hex string (the
background `"#ebedf0"` literal), an interpolated RGB triple, or an
uncaught exception while computing it (never reached on aggregator
output). -/
inductive Face where
  | hex : String → Face
  | rgb : ℝ → ℝ → ℝ → Face
  | error : Face

/-- `year_data` (plot.py line 91): the aggregates restricted to `year`. -/
def year_data (data : Date → Option Agg) (year : ℕ) : Date → Option Agg :=
  fun d => if d.year = year then data d else none

/-- The face color of the cell for day `doy` of `year` (plot.py lines
119-133): for a date with an aggregate, the blend of its types' palette
colors interpolated against the background by `intensity`; otherwise the
background color string. -/
noncomputable def cellFace (data : Date → Option Agg) (year maxCount doy : ℕ) :
    Face :=
  match year_data data year ⟨year, doy⟩ with
  | none => Face.hex "#ebedf0"
  | some a =>
    match get_color_for_date a.types with
    | .error _ => Face.error
    | .ok baseColor =>
      match hex_to_rgb "#ebedf0", hex_to_rgb baseColor with
      | some bgc, some c =>
        let I := intensity a.count maxCount
        Face.rgb ((bgc.1 : ℝ) * (1 - I) + (c.1 : ℝ) * I)
          ((bgc.2.1 : ℝ) * (1 - I) + (c.2.1 : ℝ) * I)
          ((bgc.2.2 : ℝ) * (1 - I) + (c.2.2 : ℝ) * I)
      | _, _ => Face.error

/-- The full sequence of cell faces drawn by the rendering loop (plot.py
lines 106-142): one per date from Jan 1 to Dec 31 of `year`. -/
noncomputable def renderYear (data : Date → Option Agg) (year maxCount : ℕ) :
    List Face :=
  (List.range (daysInYear year)).map (cellFace data year maxCount)

/-! ## Claim theorems -/

/-- C9: `blend_colors` returns a singleton input unchanged (plot.py lines
44-45 return `colors[0]` before any RGB round-tripping), so there is no
precision loss for a single color. -/
theorem blend_singleton_identity (c : String) : blend_colors [c] = .ok c := rfl

/-- C3 counterexample: `blend_colors []` does not fail with an
`InvalidInput` error; the loop reaches the unguarded division by
`len(rgb_values) = 0` instead. -/
theorem blend_empty_not_invalid_input :
    blend_colors [] ≠ Except.error "InvalidInput" := by
  intro h
  have h' : Except.error (ε := String) (α := String) "ZeroDivisionError" =
      Except.error "InvalidInput" := h
  injection h' with h''
  exact absurd h'' (by decide)

/-- C3 amended: calling `blend_colors` on the empty sequence fails, but
with an uncaught `ZeroDivisionError` from `sum(...) / len(rgb_values)`
(plot.py line 47), not with a dedicated `InvalidInput` error. -/
theorem blend_empty_zero_division :
    blend_colors [] = Except.error "ZeroDivisionError" := rfl

/-- C1 counterexample: Dec 31 of year 2000 (day-of-year 365 of a leap year
whose Jan 1 is a Saturday) is a date within its year whose computed grid
column is 53, outside `[0, 52]`. -/
theorem grid_column_53_counterexample :
    365 < daysInYear 2000 ∧ colOf 2000 365 = 53 ∧ ¬ colOf 2000 365 ≤ 52 := by
  refine ⟨by decide, by decide, by decide⟩

/-- C1 amended: for every day `doy` of year `y`, the grid row is in
`[0, 6]` and the grid column is in `[0, 53]`; the column stays in
`[0, 52]` for every year that is not a leap year starting on Saturday
(Sunday-indexed weekday 6), and in the exceptional years only Dec 31
(day-of-year 365) reaches column 53, one past the fixed 53-column
layout. -/
theorem grid_position_bounds (y doy : ℕ) (h : doy < daysInYear y) :
    rowOf y doy ≤ 6 ∧ colOf y doy ≤ 53 ∧
      ((isLeap y = false ∨ start_weekday_sun y ≠ 6) → colOf y doy ≤ 52) ∧
      (colOf y doy = 53 → doy = 365) := by
  unfold daysInYear at h
  unfold rowOf colOf start_weekday_sun pyWeekday at *
  split at h
  · rename_i hleap
    simp only [hleap]
    refine ⟨by omega, by omega, ?_, by omega⟩
    rintro (hc | hs)
    · cases hc
    · omega
  · rename_i hleap
    simp only [Bool.not_eq_true] at hleap
    exact ⟨by omega, by omega, fun _ => by omega, by omega⟩

/-- C1 witness: concrete instance of the bounds at Jan 1, 2024. -/
theorem grid_position_bounds_witness :
    (0 : ℕ) < daysInYear 2024 ∧
      (rowOf 2024 0 ≤ 6 ∧ colOf 2024 0 ≤ 53 ∧
        ((isLeap 2024 = false ∨ start_weekday_sun 2024 ≠ 6) →
          colOf 2024 0 ≤ 52) ∧
        (colOf 2024 0 = 53 → (0 : ℕ) = 365)) :=
  ⟨by decide, grid_position_bounds 2024 0 (by decide)⟩

/-- C6: the date-to-grid mapping is injective within one year: two
distinct days of the same year get distinct (column, row) pairs. -/
theorem cell_position_injective (y d₁ d₂ : ℕ) (h₁ : d₁ < daysInYear y)
    (h₂ : d₂ < daysInYear y) (hne : d₁ ≠ d₂) :
    (colOf y d₁, rowOf y d₁) ≠ (colOf y d₂, rowOf y d₂) := by
  intro heq
  rw [Prod.mk.injEq] at heq
  obtain ⟨hc, hr⟩ := heq
  simp only [colOf, rowOf, start_weekday_sun, pyWeekday] at hc hr
  omega

/-- C6 witness: Jan 1 and Jan 2, 2023 land on distinct grid cells. -/
theorem cell_position_injective_witness :
    (0 : ℕ) < daysInYear 2023 ∧ (1 : ℕ) < daysInYear 2023 ∧
      (colOf 2023 0, rowOf 2023 0) ≠ (colOf 2023 1, rowOf 2023 1) :=
  ⟨by decide, by decide,
    cell_position_injective 2023 0 1 (by decide) (by decide) (by decide)⟩

/-- C5: for a fixed `maxCount ≥ 1` the clamped log intensity is monotone
non-decreasing in the count, always lies in `[0.4, 1]`, and equals exactly
`1` for a count of 1 under `maxCount = 1`. -/
theorem intensity_clamp_monotone (m : ℕ) (hm : 1 ≤ m) :
    (∀ c₁ c₂ : ℕ, c₁ ≤ c₂ → intensity c₁ m ≤ intensity c₂ m) ∧
      (∀ c : ℕ, 0.4 ≤ intensity c m ∧ intensity c m ≤ 1) ∧
      intensity 1 1 = 1 := by
  have hm' : (1 : ℝ) ≤ (m : ℝ) := by exact_mod_cast hm
  have hL : 0 < Real.log (1 + (m : ℝ)) := Real.log_pos (by linarith)
  refine ⟨?_, ?_, ?_⟩
  · intro c₁ c₂ hc
    unfold intensity
    refine max_le_max le_rfl (min_le_min ?_ le_rfl)
    have hc' : (1 : ℝ) + (c₁ : ℝ) ≤ 1 + (c₂ : ℝ) := by
      have : (c₁ : ℝ) ≤ (c₂ : ℝ) := by exact_mod_cast hc
      linarith
    have hlog : Real.log (1 + (c₁ : ℝ)) ≤ Real.log (1 + (c₂ : ℝ)) :=
      Real.log_le_log (by positivity) hc'
    exact div_le_div_of_nonneg_right hlog hL.le
  · intro c
    unfold intensity
    constructor
    · exact le_max_left _ _
    · exact max_le (by norm_num) (min_le_right _ _)
  · unfold intensity
    have h2 : (1 : ℝ) + ((1 : ℕ) : ℝ) = 2 := by norm_num
    rw [h2, div_self (ne_of_gt (Real.log_pos one_lt_two)), min_self]
    exact max_eq_right (by norm_num)

/-- C5 witness: with `maxCount = 1`, the bounds hold at count 3 and the
count-1 intensity is exactly 1. -/
theorem intensity_clamp_monotone_witness :
    (0.4 ≤ intensity 3 1 ∧ intensity 3 1 ≤ 1) ∧ intensity 1 1 = 1 :=
  ⟨(intensity_clamp_monotone 1 le_rfl).2.1 3,
    (intensity_clamp_monotone 1 le_rfl).2.2⟩

/-- A cell whose date has no aggregate is painted the background color. -/
theorem cellFace_of_none (data : Date → Option Agg) (year maxCount doy : ℕ)
    (h : data ⟨year, doy⟩ = none) :
    cellFace data year maxCount doy = Face.hex "#ebedf0" := by
  unfold cellFace year_data
  simp [h]

/-- C2 counterexample: rendering year 2023 against an aggregate map with
no entries at all raises no error anywhere (there is no assertion in
`create_calendar_heatmap`); every one of the 365 cells is simply the
background color. -/
theorem render_empty_year_no_assert :
    Face.error ∉ renderYear (fun _ => none) 2023 1 ∧
      renderYear (fun _ => none) 2023 1 =
        List.replicate 365 (Face.hex "#ebedf0") := by
  have hcell : ∀ doy, cellFace (fun _ => none) 2023 1 doy =
      Face.hex "#ebedf0" := fun doy => cellFace_of_none _ 2023 1 doy rfl
  have hrender : renderYear (fun _ => none) 2023 1 =
      List.replicate 365 (Face.hex "#ebedf0") := by
    unfold renderYear
    rw [List.map_congr_left fun doy _ => hcell doy]
    rw [List.map_const', List.length_range]
    rfl
  refine ⟨?_, hrender⟩
  rw [hrender]
  intro hmem
  have := List.eq_of_mem_replicate hmem
  exact Face.noConfusion this

/-- C2 amended: when `create_calendar_heatmap` is invoked for a year none
of whose dates has an aggregate, it silently renders an all-background
grid (every iterated cell gets the neutral `#ebedf0` face); it does not
assert or fail. -/
theorem render_empty_year_silent (data : Date → Option Agg)
    (year maxCount : ℕ) (h : ∀ d : Date, d.year = year → data d = none) :
    renderYear data year maxCount =
      List.replicate (daysInYear year) (Face.hex "#ebedf0") := by
  unfold renderYear
  rw [List.map_congr_left fun doy _ =>
    cellFace_of_none data year maxCount doy (h ⟨year, doy⟩ rfl)]
  rw [List.map_const', List.length_range]

/-- C2 witness: concrete all-background render for year 2022. -/
theorem render_empty_year_silent_witness :
    renderYear (fun _ => none) 2022 1 =
      List.replicate (daysInYear 2022) (Face.hex "#ebedf0") :=
  render_empty_year_silent (fun _ => none) 2022 1 (fun _ _ => rfl)

/-- Inserting into a non-empty list (Python `set.add`) keeps it
non-empty. -/
theorem insert_ne_nil (a : String) (l : List String) (h : l ≠ []) :
    l.insert a ≠ [] := by
  rw [List.insert]
  split
  · exact h
  · exact List.cons_ne_nil a l

/-- Exact characterization of `aggregate_by_date` at one date: absent iff
no record carries that date, and present with count equal to the number
of records carrying that date and a non-empty type set otherwise. -/
theorem aggregate_by_date_spec (l : List Record) (d : Date) :
    (aggregate_by_date l d = none →
      l.filter (fun r => r.date == d) = []) ∧
    (∀ a, aggregate_by_date l d = some a →
      a.count = (l.filter (fun r => r.date == d)).length ∧
        l.filter (fun r => r.date == d) ≠ [] ∧ a.types ≠ []) := by
  induction l using List.reverseRecOn with
  | nil => exact ⟨fun _ => rfl, fun a ha => by simp [aggregate_by_date] at ha⟩
  | append_singleton l r ih =>
    have hfold : aggregate_by_date (l ++ [r]) =
        addRecord (aggregate_by_date l) r := by
      unfold aggregate_by_date
      rw [List.foldl_append]
      rfl
    rw [hfold]
    unfold addRecord
    by_cases hd : d = r.date
    · subst hd
      have hfilter : (l ++ [r]).filter (fun r' => r'.date == r.date) =
          l.filter (fun r' => r'.date == r.date) ++ [r] := by
        rw [List.filter_append]
        simp
      rw [hfilter, if_pos rfl]
      refine ⟨fun h => Option.noConfusion h, ?_⟩
      intro a ha
      injection ha with ha
      cases hagg : aggregate_by_date l r.date with
      | none =>
        rw [hagg] at ha
        have hnil := ih.1 hagg
        rw [hnil, ← ha]
        exact ⟨by simp, by simp, by simp⟩
      | some b =>
        rw [hagg] at ha
        obtain ⟨hcount, -, htypes⟩ := ih.2 b hagg
        rw [← ha]
        refine ⟨by simp [hcount], by simp, ?_⟩
        exact insert_ne_nil _ _ htypes
    · have hrd : (r.date == d) = false := by
        simp only [beq_eq_false_iff_ne, ne_eq]
        exact fun hcon => hd hcon.symm
      have hfilter : (l ++ [r]).filter (fun r' => r'.date == d) =
          l.filter (fun r' => r'.date == d) := by
        rw [List.filter_append]
        simp [hrd]
      rw [hfilter, if_neg hd]
      exact ih

/-- C8: every aggregate produced by `aggregate_by_date` has a count at
least the number of contributing records for its date, that number is at
least 1, and its category set is non-empty. -/
theorem aggregate_invariant (ratings : List Record) (d : Date) (a : Agg)
    (h : aggregate_by_date ratings d = some a) :
    (ratings.filter (fun r => r.date == d)).length ≤ a.count ∧
      1 ≤ (ratings.filter (fun r => r.date == d)).length ∧
      a.types ≠ [] := by
  obtain ⟨hcount, hne, htypes⟩ := (aggregate_by_date_spec ratings d).2 a h
  refine ⟨le_of_eq hcount.symm, ?_, htypes⟩
  have := List.length_pos.mpr hne
  omega

/-- C8 witness: the invariant at the singleton record list for
Jan 15, 2023 (day-of-year 14). -/
theorem aggregate_invariant_witness :
    (([⟨⟨2023, 14⟩, "Movie"⟩] : List Record).filter
        (fun r => r.date == ⟨2023, 14⟩)).length ≤ (1 : ℕ) ∧
      1 ≤ (([⟨⟨2023, 14⟩, "Movie"⟩] : List Record).filter
        (fun r => r.date == ⟨2023, 14⟩)).length ∧
      (["Movie"] : List String) ≠ [] :=
  aggregate_invariant [⟨⟨2023, 14⟩, "Movie"⟩] ⟨2023, 14⟩ ⟨1, ["Movie"]⟩
    (by decide)

/-- A row whose raw category maps to the drop sentinel produces no
record. -/
theorem loadRow_of_drop (row : Row) (h : mapType row.titleType = none) :
    loadRow row = none := by
  unfold loadRow
  split
  · rw [h]
  · rfl

/-- C7: (1) removing the rows whose raw category maps to the drop
sentinel changes neither the loaded records nor any date aggregate built
from them (a dropped record contributes to no `DateAggregate`);
(2) `"Video Game"` maps to the drop sentinel; (3) every loaded record
carries exactly the canonical name its raw category maps to; (4) a raw
category absent from `TYPE_MAPPING` passes through unchanged as its own
category. -/
theorem category_mapping_drop :
    (∀ rows : List Row,
      load_imdb_ratings (rows.filter fun r => (mapType r.titleType).isSome) =
        load_imdb_ratings rows ∧
      aggregate_by_date (load_imdb_ratings
          (rows.filter fun r => (mapType r.titleType).isSome)) =
        aggregate_by_date (load_imdb_ratings rows)) ∧
    mapType "Video Game" = none ∧
    (∀ (row : Row) (q : Record), loadRow row = some q →
      mapType row.titleType = some q.title_type) ∧
    (∀ t : String, TYPE_MAPPING.find? (fun p => p.1 == t) = none →
      mapType t = some t) := by
  have hload : ∀ rows : List Row,
      load_imdb_ratings (rows.filter fun r => (mapType r.titleType).isSome) =
        load_imdb_ratings rows := by
    intro rows
    induction rows with
    | nil => rfl
    | cons r rest ih =>
      unfold load_imdb_ratings at ih ⊢
      cases hmap : mapType r.titleType with
      | none =>
        simp only [List.filter_cons, hmap, Option.isSome_none]
        rw [if_neg (by simp)]
        rw [ih]
        simp [List.filterMap_cons, loadRow_of_drop r hmap]
      | some m =>
        simp only [List.filter_cons, hmap, Option.isSome_some]
        rw [if_pos (by simp)]
        simp only [List.filterMap_cons]
        rw [ih]
  refine ⟨fun rows => ⟨hload rows, by rw [hload rows]⟩, by decide, ?_, ?_⟩
  · intro row q h
    unfold loadRow at h
    split at h
    · cases hmap : mapType row.titleType with
      | none => rw [hmap] at h; cases h
      | some m =>
        rw [hmap] at h
        cases hdate : parseDate row.dateRated with
        | none => rw [hdate] at h; cases h
        | some dt =>
          rw [hdate] at h
          injection h with h
          rw [← h]
    · cases h
  · intro t h
    unfold mapType
    rw [h]

/-- C7 witness: the conjuncts at concrete inputs: a single
`"Video Game"` row loads as if absent; the loaded record of a
`"TV Movie"` row carries the canonical `"Movie"`; `"Documentary"`
(unmapped) passes through unchanged. -/
theorem category_mapping_drop_witness :
    load_imdb_ratings (([⟨"2023-01-15", "Video Game"⟩] : List Row).filter
        fun r => (mapType r.titleType).isSome) =
      load_imdb_ratings [⟨"2023-01-15", "Video Game"⟩] ∧
    mapType "TV Movie" = some "Movie" ∧
    mapType "Documentary" = some "Documentary" :=
  ⟨(category_mapping_drop.1 [⟨"2023-01-15", "Video Game"⟩]).1,
    category_mapping_drop.2.2.1 ⟨"2023-01-15", "TV Movie"⟩
      ⟨⟨2023, 14⟩, "Movie"⟩ (by decide),
    category_mapping_drop.2.2.2 "Documentary" (by decide)⟩

deriving instance DecidableEq for Except

section

attribute [local semireducible] Rat.add Rat.sub Rat.mul Rat.inv

set_option maxRecDepth 100000

/-- C4 counterexample: blending `#010000` and `#410000` does not yield
the truncated exact per-channel mean `#210000` (`(1+65)/2 = 33 = 0x21`):
the IEEE-double pipeline computes `fl(fl(fl(1/255)+fl(65/255))/2)*255 =
32.99999999999999`, and truncation gives `#200000`. -/
theorem blend_mean_truncation_counterexample :
    blend_colors ["#010000", "#410000"] = Except.ok "#200000" ∧
      blend_colors ["#010000", "#410000"] ≠
        Except.ok ("#" ++ toHex2 (((1 + 65) / 2 : ℕ) : ℤ) ++ toHex2 0 ++
          toHex2 0) := by
  constructor
  · decide
  · decide

/-- C4 amended: blending the spec's concrete pair — indigo `#4f46e5` and
green `#16a34a` — does yield exactly the truncated per-channel average,
`(79+22)/2 = 50 = 0x32`, `(70+163)/2 = 116 = 0x74`,
`(229+74)/2 = 151 = 0x97`, i.e. `#327497`, even through the IEEE-double
pipeline. -/
theorem blend_mean_truncation_concrete :
    blend_colors ["#4f46e5", "#16a34a"] =
      Except.ok ("#" ++ toHex2 (((79 + 22) / 2 : ℕ) : ℤ)
        ++ toHex2 (((70 + 163) / 2 : ℕ) : ℤ)
        ++ toHex2 (((229 + 74) / 2 : ℕ) : ℤ)) := by
  decide

/-- C10 counterexample: `blend_colors` is not invariant under general
permutations: the float summation order matters for three or more
colors.  `["#010000", "#010000", "#280000"]` blends to `#0e0000`, but
its permutation `["#280000", "#010000", "#010000"]` blends to
`#0d0000`. -/
theorem blend_perm_counterexample :
    blend_colors ["#010000", "#010000", "#280000"] = Except.ok "#0e0000" ∧
      blend_colors ["#280000", "#010000", "#010000"] = Except.ok "#0d0000" ∧
      blend_colors ["#010000", "#010000", "#280000"] ≠
        blend_colors ["#280000", "#010000", "#010000"] := by
  refine ⟨by decide, by decide, by decide⟩

end

/-- C10 amended: swapping the elements of a two-color blend never
changes the result: a single float addition is commutative, and every
other step (validation, length, division, formatting) is
position-independent for two elements. -/
theorem blend_pair_swap (a b : String) :
    blend_colors [a, b] = blend_colors [b, a] := by
  unfold blend_colors
  rw [if_neg (by simp), if_neg (by simp)]
  cases ha : hex_to_rgb a with
  | none =>
    cases hb : hex_to_rgb b with
    | none => simp [allSome, ha, hb]
    | some y => simp [allSome, ha, hb]
  | some x =>
    cases hb : hex_to_rgb b with
    | none => simp [allSome, ha, hb]
    | some y =>
      simp only [List.map_cons, List.map_nil, ha, hb, allSome, Option.map]
      simp only [fsum, List.foldl]
      rw [add_comm x.1 y.1, add_comm x.2.1 y.2.1, add_comm x.2.2 y.2.2]
      simp

end Heatmap
